import Mathlib

/-!
Verification of the client-side data-synchronization layer of the
e-Commerce-Recommender dashboard: the file stager, the upload transport
engine, the response normalizer and the mutation coordinator, embedded
shallowly from the TypeScript sources
(frontend/app/recommendations/page.tsx, frontend/lib/api.ts, and the
behavior page component).
-/

namespace ECRec

/-- A JSON-like value, modelling the values JavaScript code manipulates
after JSON.parse: null, booleans, numbers, strings, arrays and objects.
Object fields are an association list in source order. -/
inductive JVal where
  | null
  | bool (b : Bool)
  | num (n : Int)
  | str (s : String)
  | arr (xs : List JVal)
  | obj (fields : List (String × JVal))

/-- JavaScript truthiness of a value: null, false, 0 and the empty string
are falsy; every array and object is truthy. -/
def truthy : JVal → Bool
  | .null => false
  | .bool b => b
  | .num n => n != 0
  | .str s => s != ""
  | .arr _ => true
  | .obj _ => true

/-- Property access `v.k` on a JavaScript value: defined only on objects,
`none` models the JavaScript `undefined` produced on every other shape. -/
def jGet : JVal → String → Option JVal
  | .obj fields, k => fields.lookup k
  | _, _ => none

/-- Truthiness of a possibly-undefined value (`undefined` is falsy). -/
def otruthy : Option JVal → Bool
  | some v => truthy v
  | none => false

/-- Optional chaining guard `x?.` : both `undefined` and `null` short-circuit
to `undefined`. -/
def jOpt : Option JVal → Option JVal
  | some .null => none
  | o => o

/-- Index access `v[0]`: first element of an array, field "0" of an object,
first character of a nonempty string, `undefined` otherwise. -/
def jIndex0 : JVal → Option JVal
  | .arr xs => xs.head?
  | .obj fields => fields.lookup "0"
  | .str s => if s.isEmpty then none else some (.str (String.singleton s.front))
  | _ => none

/-- The JavaScript expression `a || b` where `a` may be `undefined`:
the left value when it is defined and truthy, otherwise `b`. -/
def jsOr (a : Option JVal) (b : JVal) : JVal :=
  match a with
  | some v => if truthy v then v else b
  | none => b

/-- The `Array.isArray` test. -/
def JVal.isArr : JVal → Bool
  | .arr _ => true
  | _ => false

/-- The check `v.k && Array.isArray(v.k)` followed by using `v.k` as a list:
yields the element list exactly when field `k` is present and is an array
(arrays are always truthy). -/
def jGetArr (v : JVal) (k : String) : Option (List JVal) :=
  match jGet v k with
  | some (.arr xs) => some xs
  | _ => none

/-- Embeds the response-shape handling in `fetchBehaviors`
(behavior page): if the parsed body is an array use it; else if
`data.behaviors` is an array use that; else if `data.data` is an array use
that; else the list is left empty (`behaviorsList` keeps its `[]`
initializer and is stored unconditionally). -/
def normalizeBehaviors (data : JVal) : List JVal :=
  match data with
  | .arr xs => xs
  | _ =>
    match jGetArr data "behaviors" with
    | some xs => xs
    | none =>
      match jGetArr data "data" with
      | some xs => xs
      | none => []

/-- Embeds the response-shape handling in `fetchProducts`
(catalog page): if the parsed body is an array adopt it; else if
`data.products` is an array adopt that; else if `data.data` is an array
adopt that; otherwise no `setCatalog` call is made, so the previous local
list `prev` is kept unchanged. -/
def normalizeProducts (prev : List JVal) (data : JVal) : List JVal :=
  match data with
  | .arr xs => xs
  | _ =>
    match jGetArr data "products" with
    | some xs => xs
    | none =>
      match jGetArr data "data" with
      | some xs => xs
      | none => prev

/-! ## File Stager (handleFilesSelected / handleConfirmLargeFiles /
handleCancelLargeFiles in frontend/app/recommendations/page.tsx) -/

/-- A candidate file as delivered by the file input: name, declared media
type and size in bytes. -/
structure RawFile where
  name : String
  type : String
  size : Nat
deriving DecidableEq

/-- A staged file (`FileWithMeta` in frontend/lib/types.ts); the opaque
`file` handle is represented by the originating RawFile. -/
structure FileWithMeta where
  file : RawFile
  id : String
  name : String
  size : Nat
deriving DecidableEq

/-- The 5 MB size threshold (`MAX_FILE_SIZE = 5 * 1024 * 1024`). -/
def MAX_FILE_SIZE : Nat := 5 * 1024 * 1024

/-- JavaScript `toLowerCase`, character by character. -/
def jsToLower (s : String) : String := String.mk (s.data.map Char.toLower)

/-- JavaScript `String.prototype.endsWith`. -/
def jsEndsWith (s suffix : String) : Bool := suffix.data.isSuffixOf s.data

/-- The CSV type check in handleFilesSelected:
`file.type === "text/csv" || file.name.toLowerCase().endsWith(".csv")`. -/
def isCSV (f : RawFile) : Bool :=
  f.type == "text/csv" || jsEndsWith (jsToLower f.name) ".csv"

/-- Builds the staged entry for a file. The source id is
`name + "-" + Date.now() + "-" + Math.random()`; the time/random
disambiguator is abstracted as the caller-supplied `stamp` function. -/
def mkMeta (stamp : RawFile → String) (f : RawFile) : FileWithMeta :=
  { file := f, id := f.name ++ "-" ++ stamp f, name := f.name, size := f.size }

/-- The stager-relevant page state: staged files, the pending
large-file batch, the warning-dialog flag and the session error text. -/
structure StagerState where
  files : List FileWithMeta
  pendingLargeFiles : List RawFile
  showLargeFileWarning : Bool
  errMsg : String
deriving DecidableEq

/-- Embeds handleFilesSelected: partitions the selection into valid CSVs
at or below the threshold (staged immediately, appended in order),
oversized CSVs (replacing the pending batch and opening the warning when
nonempty) and invalid-typed files (which only set the session error). -/
def handleFilesSelected (st : StagerState) (selected : List RawFile)
    (stamp : RawFile → String) : StagerState :=
  let validFiles := (selected.filter (fun f => isCSV f && f.size ≤ MAX_FILE_SIZE)).map (mkMeta stamp)
  let largeFiles := selected.filter (fun f => isCSV f && f.size > MAX_FILE_SIZE)
  let hasInvalidType := selected.any (fun f => !isCSV f)
  { files := st.files ++ validFiles
    pendingLargeFiles := if largeFiles.isEmpty then st.pendingLargeFiles else largeFiles
    showLargeFileWarning := if largeFiles.isEmpty then st.showLargeFileWarning else true
    errMsg := if hasInvalidType then "Only CSV files are allowed" else "" }

/-- Embeds handleConfirmLargeFiles: the whole pending batch is mapped to
staged entries and appended, the pending set is emptied and the dialog
closed. -/
def handleConfirmLargeFiles (st : StagerState) (stamp : RawFile → String) : StagerState :=
  { st with
    files := st.files ++ st.pendingLargeFiles.map (mkMeta stamp)
    pendingLargeFiles := []
    showLargeFileWarning := false }

/-- Embeds handleCancelLargeFiles: the pending batch is discarded and the
dialog closed; the staged set is untouched. -/
def handleCancelLargeFiles (st : StagerState) : StagerState :=
  { st with pendingLargeFiles := [], showLargeFileWarning := false }

/-! ## Mutation Coordinator for BehaviorRecord
(handleUpdate / handleDelete / handleAddFromDialog on the behavior page) -/

/-- A behavior row as held in page state (`BehaviorItem`): the four data
fields plus the optional server-assigned identifiers. -/
structure BehaviorItem where
  user_id : String
  product_id : String
  action : String
  timestamp : String
  behavior_id : Option String := none
  _id : Option String := none
deriving DecidableEq, Inhabited

/-- The edited row handed to onUpdate by the editable table: the editable
columns, with `user_id` possibly absent from the record. -/
structure BehaviorUpdate where
  user_id : Option String := none
  product_id : String
  action : String
  timestamp : String

/-- Data entered in the add-behavior dialog (all four fields present). -/
structure NewBehavior where
  user_id : String
  product_id : String
  action : String
  timestamp : String

/-- The remote CRUD call either resolves with a parsed JSON body or
rejects with an error message. -/
inductive Remote where
  | ok (body : JVal)
  | err (msg : String)

/-- JavaScript `a || b` on a possibly-undefined string (empty strings are
falsy). -/
def jsOrS (a : Option String) (b : String) : String :=
  match a with
  | some s => if s == "" then b else s
  | none => b

/-- JavaScript truthiness of a possibly-undefined string field. -/
def jsTruthyS : Option String → Bool
  | some s => s != ""
  | none => false

/-- The identity-resolution rule
`item._id || item.behavior_id || item.user_id`. -/
def behaviorIdOf (item : BehaviorItem) : String :=
  jsOrS item._id (jsOrS item.behavior_id item.user_id)

/-- The local row mutation `{...prev[rowIndex], ...data}`: fields present
in the edited record overwrite, the server id fields are preserved. -/
def applyUpdate (item : BehaviorItem) (d : BehaviorUpdate) : BehaviorItem :=
  { item with
    user_id := d.user_id.getD item.user_id
    product_id := d.product_id
    action := d.action
    timestamp := d.timestamp }

/-- Observable result of one update/delete mutation: the new local list,
the toast error raised (none on success), and the id sent to the server
(none when no network call was issued). -/
structure MutationResult where
  list : List BehaviorItem
  toast : Option String
  sent : Option String

/-- Embeds handleUpdate of the behavior page: fail fast with the
missing-identity toast when `item._id` is falsy (no network call, list
untouched); otherwise call the server with the resolved id and apply the
same local row mutation whether the call succeeded or failed, raising the
failure toast in the latter case. -/
def handleUpdate (behaviour : List BehaviorItem) (rowIndex : Nat)
    (d : BehaviorUpdate) (remote : Remote) : MutationResult :=
  let item := behaviour.getD rowIndex default
  if !jsTruthyS item._id then
    { list := behaviour, toast := some "Cannot update: Missing _id field", sent := none }
  else
    match remote with
    | .ok _ =>
      { list := behaviour.set rowIndex (applyUpdate item d)
        toast := none, sent := some (behaviorIdOf item) }
    | .err _ =>
      { list := behaviour.set rowIndex (applyUpdate item d)
        toast := some "Failed to update behavior", sent := some (behaviorIdOf item) }

/-- Embeds handleDelete of the behavior page: the same missing-identity
gate; otherwise the row is removed from the local list whether the remote
delete succeeded or failed, with a failure toast in the latter case. -/
def handleDelete (behaviour : List BehaviorItem) (rowIndex : Nat)
    (remote : Remote) : MutationResult :=
  let item := behaviour.getD rowIndex default
  if !jsTruthyS item._id then
    { list := behaviour, toast := some "Cannot delete: Missing _id field", sent := none }
  else
    match remote with
    | .ok _ =>
      { list := behaviour.eraseIdx rowIndex, toast := none, sent := some (behaviorIdOf item) }
    | .err _ =>
      { list := behaviour.eraseIdx rowIndex, toast := some "Failed to delete behavior"
        sent := some (behaviorIdOf item) }

/-- Observable result of a create mutation: the new local list, the toast
error, and whether the error was re-thrown to the dialog. -/
structure CreateResult where
  list : List BehaviorItem
  toast : Option String
  rethrown : Bool

/-- Reads an optional string field of the server body
(`result?.behavior_id`, `result?._id`). -/
def jGetStr (v : JVal) (k : String) : Option String :=
  match jGet v k with
  | some (.str s) => some s
  | _ => none

/-- Embeds handleAddFromDialog: on success the new row (input fields plus
any server-returned ids) is appended; on failure the list is unchanged,
the failure toast is raised and the error is re-thrown to the caller. -/
def handleAddFromDialog (behaviour : List BehaviorItem) (d : NewBehavior)
    (remote : Remote) : CreateResult :=
  match remote with
  | .ok result =>
    { list := behaviour ++
        [{ user_id := d.user_id, product_id := d.product_id, action := d.action
           timestamp := d.timestamp, behavior_id := jGetStr result "behavior_id"
           _id := jGetStr result "_id" }]
      toast := none, rethrown := false }
  | .err _ =>
    { list := behaviour, toast := some "Failed to add behavior", rethrown := true }

/-! ## Transport Engine (handleUpload / handleCancelUpload in
frontend/app/recommendations/page.tsx)

The upload session is modelled as a state machine driven by the events the
browser delivers to the XMLHttpRequest handlers, plus the user's cancel
clicks. The `settled` flag embeds the browser guarantee that an
XMLHttpRequest delivers at most one of load / error / abort and no further
upload events afterwards. -/

/-- The `UploadProgress` record of frontend/lib/types.ts: the overall
percentage and the per-file-id percentage map. -/
structure UploadProgress where
  overall : Nat
  perFile : List (String × Nat)
deriving DecidableEq

/-- The terminal outcome of an upload session, carrying the data the
handlers store. -/
inductive Outcome where
  | success (recs : JVal) (expl : JVal)
  | serverError (msg : JVal)
  | networkError
  | aborted

/-- The upload-session slice of the page state: the uploading flag, the
presence of the abort controller, the settled flag of the underlying
transport, the progress record and the result/error fields. -/
structure SessionState where
  isUploading : Bool
  hasAbort : Bool
  settled : Bool
  progress : UploadProgress
  recommendations : JVal
  explanation : JVal
  errMsg : JVal

/-- The percentage computation of the onprogress handler,
`Math.round((event.loaded / event.total) * 100)` on naturals:
`Math.round x = ⌊x + 1/2⌋` for the non-negative ratios involved. -/
def pct (loaded total : Nat) : Nat :=
  (200 * loaded + total) / (2 * total)

/-- The progress record broadcast to every staged file: the same
percentage for the overall bar and for each file id. -/
def tickProgress (files : List FileWithMeta) (p : Nat) : UploadProgress :=
  { overall := p, perFile := files.map (fun f => (f.id, p)) }

/-- The common epilogue of the three terminal handlers:
`setIsUploading(false); setAbortController(null)` plus the transport
being settled. -/
def settle (st : SessionState) : SessionState :=
  { st with isUploading := false, hasAbort := false, settled := true }

/-- JavaScript `v.length > 0` applied to an arbitrary value: positive
length of an array or string, a positive numeric `length` field of an
object, false on everything else (`undefined > 0` is false). -/
def jsLenPos : JVal → Bool
  | .arr xs => decide (0 < xs.length)
  | .str s => decide (0 < s.length)
  | .obj fields =>
    match fields.lookup "length" with
    | some (.num n) => decide (0 < n)
    | _ => false
  | _ => false

/-- Embeds the xhr.onload handler: stop uploading and drop the abort
controller; on status 200 with a parseable body whose `recommendations`
field is truthy and of positive length, adopt it together with
`explanation || ""`; on status 200 otherwise set the corresponding error
text; on any other status surface `message || error` from the parsed
body, or the raw response text (or the canned server-error text) when the
body is not parseable. `body` is the JSON parse of `rawText` (`none` when
parsing fails). Every branch delivers one terminal outcome. -/
def xhrOnload (st : SessionState) (status : Nat) (rawText : String)
    (body : Option JVal) : SessionState × Option Outcome :=
  let base := settle st
  if status == 200 then
    match body with
    | some data =>
      match jGet data "recommendations" with
      | some r =>
        if truthy r && jsLenPos r then
          let ex := jsOr (jGet data "explanation") (.str "")
          ({ base with recommendations := r, explanation := ex }, some (.success r ex))
        else
          ({ base with errMsg := .str "No recommendations found for uploaded data." },
            some (.serverError (.str "No recommendations found for uploaded data.")))
      | none =>
        ({ base with errMsg := .str "No recommendations found for uploaded data." },
          some (.serverError (.str "No recommendations found for uploaded data.")))
    | none =>
      ({ base with errMsg := .str "Unexpected server response." },
        some (.serverError (.str "Unexpected server response.")))
  else
    match body with
    | some errorData =>
      let m := jsOr (jGet errorData "message")
        (jsOr (jGet errorData "error") (.str "Server error occurred."))
      ({ base with errMsg := m }, some (.serverError m))
    | none =>
      let m : JVal := if rawText == "" then .str "Server error occurred." else .str rawText
      ({ base with errMsg := m }, some (.serverError m))

/-- Embeds handleCancelUpload: when an abort controller is present its
abort signal synchronously aborts the transport, whose onabort handler
stops uploading, drops the controller and resets the progress record to
zero, delivering the Aborted outcome; with no controller the click is a
no-op. -/
def cancelStep (st : SessionState) : SessionState × Option Outcome :=
  if st.hasAbort then
    ({ settle st with progress := { overall := 0, perFile := [] } }, some .aborted)
  else
    (st, none)

/-- The events a real-mode upload session reacts to: upload progress
events, the load event carrying status and response text, the network
error event, and the user's cancel click. -/
inductive RealEv where
  | progress (lengthComputable : Bool) (loaded total : Nat)
  | load (status : Nat) (rawText : String) (body : Option JVal)
  | netError
  | userCancel

/-- One step of the real-mode session. Transport events reaching a settled
request are not delivered (browser guarantee); onprogress with a
computable length broadcasts the rounded percentage to the overall bar and
to every staged file; onerror sets the network-error text and delivers
NetworkError. -/
def realStep (files : List FileWithMeta) (st : SessionState) :
    RealEv → SessionState × Option Outcome
  | .progress lengthComputable loaded total =>
    if st.settled then (st, none)
    else if lengthComputable then
      ({ st with progress := tickProgress files (pct loaded total) }, none)
    else (st, none)
  | .load status rawText body =>
    if st.settled then (st, none) else xhrOnload st status rawText body
  | .netError =>
    if st.settled then (st, none)
    else ({ settle st with errMsg := .str "Network error. Please check your connection." },
      some .networkError)
  | .userCancel => cancelStep st

/-- The session state set up by handleUpload before a real-mode transfer:
cleared results and error, uploading, a live abort controller, zero
progress, transport in flight. -/
def realInit : SessionState :=
  { isUploading := true, hasAbort := true, settled := false
    progress := { overall := 0, perFile := [] }
    recommendations := .arr [], explanation := .str "", errMsg := .str "" }

/-- Runs a real-mode session over a list of events, collecting the
delivered outcomes in order. -/
def realRun (files : List FileWithMeta) (st : SessionState) :
    List RealEv → SessionState × List Outcome
  | [] => (st, [])
  | e :: es =>
    let s1 := realStep files st e
    let s2 := realRun files s1.1 es
    (s2.1, s1.2.toList ++ s2.2)

/-- The states visited by a real-mode session, starting state included. -/
def runStatesFrom (files : List FileWithMeta) (st : SessionState) :
    List RealEv → List SessionState
  | [] => [st]
  | e :: es => st :: runStatesFrom files (realStep files st e).1 es

/-- A trace of onprogress events with computable length, one per loaded
byte count, all sharing the same total. -/
def progressTrace (lds : List Nat) (total : Nat) : List RealEv :=
  lds.map (fun l => .progress true l total)

/-! ### Mock mode -/

/-- The tick percentages of the mock loop `for i = 0; i <= 100; i += 10`. -/
def mockTicks : List Nat := (List.range 11).map (fun i => i * 10)

/-- The session state set up by handleUpload before the mock loop: same
reset as the real branch, but no abort controller is created and no
transport starts. -/
def mockStart (st : SessionState) : SessionState :=
  { st with
    isUploading := true
    progress := { overall := 0, perFile := [] }
    recommendations := .arr []
    explanation := .str ""
    errMsg := .str "" }

/-- Embeds the mock branch of handleUpload: the progress snapshots
published by the tick loop and the terminal Success carrying the canned
envelope (`mockRecommendations.recommendations` and
`mockRecommendations.explanation || ""`), the latter passed in as
`cannedRecs` / `cannedExpl` since the canned module constant lives outside
the transport code. -/
def mockUpload (files : List FileWithMeta) (cannedRecs : JVal)
    (cannedExpl : Option JVal) : List UploadProgress × Outcome :=
  (mockTicks.map (tickProgress files), .success cannedRecs (jsOr cannedExpl (.str "")))

/-- The events interleavable during the mock tick loop: the scheduled
ticks and user cancel clicks at the suspension points between them. -/
inductive MockEv where
  | tick (i : Nat)
  | cancel

/-- Whether a mock-loop event is a scheduled tick. -/
def MockEv.isTick : MockEv → Bool
  | .tick _ => true
  | .cancel => false

/-- One step of the mock session: a tick publishes the uniform progress
record; a cancel click runs handleCancelUpload. -/
def mockStep (files : List FileWithMeta) (st : SessionState) :
    MockEv → SessionState × Option Outcome
  | .tick i => ({ st with progress := tickProgress files i }, none)
  | .cancel => cancelStep st

/-- Runs the mock loop over a list of events, collecting outcomes. -/
def mockRunEv (files : List FileWithMeta) (st : SessionState) :
    List MockEv → SessionState × List Outcome
  | [] => (st, [])
  | e :: es =>
    let s1 := mockStep files st e
    let s2 := mockRunEv files s1.1 es
    (s2.1, s1.2.toList ++ s2.2)

/-- The idle page state before an upload starts: not uploading, no abort
controller, nothing settled and zero progress. -/
def idleState : SessionState :=
  { isUploading := false, hasAbort := false, settled := false
    progress := { overall := 0, perFile := [] }
    recommendations := .arr [], explanation := .str "", errMsg := .str "" }

/-! ## apiFetch error classification (frontend/lib/api.ts) -/

/-- The Fetch API's `Response.ok`: status in the inclusive range 200-299. -/
def responseOk (status : Nat) : Bool :=
  decide (200 ≤ status) && decide (status ≤ 299)

/-- The optional chain `errorData.detail?.[0]?.msg`. -/
def detailMsg (errorData : JVal) : Option JVal :=
  (jOpt (jGet errorData "detail")).bind fun d =>
    (jOpt (jIndex0 d)).bind fun x => jGet x "msg"

/-- The error text built by apiFetch for a non-ok response:
`errorData.detail?.[0]?.msg || errorData.detail || errorData.message ||
"API Error: <status> <statusText>"`. -/
def apiFetchErrorMsg (errorData : JVal) (status : Nat) (statusText : String) : JVal :=
  jsOr (detailMsg errorData)
    (jsOr (jGet errorData "detail")
      (jsOr (jGet errorData "message")
        (.str ("API Error: " ++ toString status ++ " " ++ statusText))))

/-- Result of one apiFetch call: the parsed body on an ok response, or the
thrown error's message value. -/
inductive ApiResult where
  | ok (body : JVal)
  | err (msg : JVal)

/-- Embeds apiFetch's response handling: an ok (2xx) response resolves
with its parsed body `okBody`; otherwise the error body (parsed as
`errBody`, or `{}` when parsing fails, per `.catch(() => ({}))`) yields
the surfaced error text. -/
def apiFetchResult (status : Nat) (statusText : String) (errBody : Option JVal)
    (okBody : JVal) : ApiResult :=
  if responseOk status then .ok okBody
  else .err (apiFetchErrorMsg (errBody.getD (.obj [])) status statusText)

/-! ## Sample data used by the evaluation witnesses -/

/-- A behavior row that carries a server-assigned `_id`. -/
def sampleItemWithId : BehaviorItem :=
  { user_id := "U1", product_id := "P1", action := "view"
    timestamp := "2024-01-01 10:00:00", behavior_id := some "B1", _id := some "65a1" }

/-- A behavior row lacking the server-assigned `_id`. -/
def sampleItemNoId : BehaviorItem :=
  { user_id := "U1", product_id := "P1", action := "view"
    timestamp := "2024-01-01 10:00:00" }

/-- A caller-supplied edit of a behavior row. -/
def sampleUpdate : BehaviorUpdate :=
  { user_id := some "U1", product_id := "P2", action := "purchase"
    timestamp := "2024-01-02 11:30:00" }

/-- Data entered in the add-behavior dialog. -/
def sampleNew : NewBehavior :=
  { user_id := "U2", product_id := "P3", action := "view"
    timestamp := "2024-01-03 09:00:00" }

/-! ## Theorems -/

/-- C1. For every update or delete mutation whose remote call fails, the
coordinator still applies the same local mutation as on success (the row
is set to the caller-supplied values on update, removed on delete) and
separately surfaces a user-visible error; a failed create propagates the
error to the caller and leaves local state completely unchanged. -/
theorem failed_mutation_policy (behaviour : List BehaviorItem) (i : Nat)
    (d : BehaviorUpdate) (nd : NewBehavior) (msg : String) (body : JVal)
    (hid : jsTruthyS (behaviour.getD i default)._id = true) :
    (handleUpdate behaviour i d (.err msg)).list =
        behaviour.set i (applyUpdate (behaviour.getD i default) d)
    ∧ (handleUpdate behaviour i d (.err msg)).list = (handleUpdate behaviour i d (.ok body)).list
    ∧ (handleUpdate behaviour i d (.err msg)).toast = some "Failed to update behavior"
    ∧ (handleDelete behaviour i (.err msg)).list = behaviour.eraseIdx i
    ∧ (handleDelete behaviour i (.err msg)).list = (handleDelete behaviour i (.ok body)).list
    ∧ (handleDelete behaviour i (.err msg)).toast = some "Failed to delete behavior"
    ∧ (handleAddFromDialog behaviour nd (.err msg)).list = behaviour
    ∧ (handleAddFromDialog behaviour nd (.err msg)).rethrown = true
    ∧ (handleAddFromDialog behaviour nd (.err msg)).toast = some "Failed to add behavior" := by
  have hid2 : jsTruthyS (behaviour[i]?.getD default)._id = true := by
    simpa [List.getD] using hid
  simp [handleUpdate, handleDelete, handleAddFromDialog, List.getD, hid2]

/-- Witness for C1 at a concrete one-row list whose row has an `_id`. -/
theorem failed_mutation_policy_witness :
    jsTruthyS (([sampleItemWithId].getD 0 default))._id = true
    ∧ (handleUpdate [sampleItemWithId] 0 sampleUpdate (.err "boom")).list =
        [sampleItemWithId].set 0 (applyUpdate ([sampleItemWithId].getD 0 default) sampleUpdate)
    ∧ (handleAddFromDialog [sampleItemWithId] sampleNew (.err "boom")).list = [sampleItemWithId] :=
  have h := failed_mutation_policy [sampleItemWithId] 0 sampleUpdate sampleNew "boom" .null
    (by decide)
  ⟨by decide, h.1, h.2.2.2.2.2.2.1⟩

/-- C2. Updating or deleting a BehaviorRecord lacking the server-assigned
stable identifier fails fast with the missing-identity error, issues no
network call and leaves the local list unchanged; a record that has the
identifier is sent to the server under exactly that identifier. -/
theorem missing_identity_gate (b1 b2 : List BehaviorItem) (i j : Nat)
    (d : BehaviorUpdate) (r : Remote)
    (h1 : jsTruthyS ((b1.getD i default))._id = false)
    (h2 : jsTruthyS ((b2.getD j default))._id = true) :
    (handleUpdate b1 i d r).sent = none
    ∧ (handleUpdate b1 i d r).list = b1
    ∧ (handleUpdate b1 i d r).toast = some "Cannot update: Missing _id field"
    ∧ (handleDelete b1 i r).sent = none
    ∧ (handleDelete b1 i r).list = b1
    ∧ (handleDelete b1 i r).toast = some "Cannot delete: Missing _id field"
    ∧ (handleUpdate b2 j d r).sent = some (((b2.getD j default))._id.getD "")
    ∧ (handleDelete b2 j r).sent = some (((b2.getD j default))._id.getD "") := by
  obtain ⟨s, hx, hs⟩ : ∃ s, (b2.getD j default)._id = some s ∧ s ≠ "" := by
    cases hx : (b2.getD j default)._id with
    | none => rw [hx] at h2; simp [jsTruthyS] at h2
    | some s =>
      refine ⟨s, rfl, ?_⟩
      rw [hx] at h2
      simpa [jsTruthyS] using h2
  have h1a : jsTruthyS (b1[i]?.getD default)._id = false := by simpa [List.getD] using h1
  have hxa : (b2[j]?.getD default)._id = some s := by simpa [List.getD] using hx
  have hb2 : jsTruthyS (b2[j]?.getD default)._id = true := by simpa [List.getD] using h2
  have hid2 : behaviorIdOf (b2[j]?.getD default) = s := by
    simp [behaviorIdOf, jsOrS, hxa, hs]
  have hss : jsTruthyS (some s) = true := by simp [jsTruthyS, hs]
  cases r <;>
    simp [handleUpdate, handleDelete, List.getD, h1a, hb2, hid2, hxa, hss]

/-- Witness for C2: a row without `_id` is gated, a row with `_id` is
sent under that id. -/
theorem missing_identity_gate_witness :
    jsTruthyS (([sampleItemNoId].getD 0 default))._id = false
    ∧ jsTruthyS (([sampleItemWithId].getD 0 default))._id = true
    ∧ (handleUpdate [sampleItemNoId] 0 sampleUpdate (.ok .null)).sent = none
    ∧ (handleUpdate [sampleItemNoId] 0 sampleUpdate (.ok .null)).list = [sampleItemNoId]
    ∧ (handleUpdate [sampleItemWithId] 0 sampleUpdate (.ok .null)).sent =
        some ((([sampleItemWithId].getD 0 default))._id.getD "") :=
  have h := missing_identity_gate [sampleItemNoId] [sampleItemWithId] 0 0 sampleUpdate
    (.ok .null) (by decide) (by decide)
  ⟨by decide, by decide, h.1, h.2.1, h.2.2.2.2.2.2.1⟩

/-- C6 counterexample. The claim says a raw value matching none of the
normalization rules yields an empty item list; the products fetch instead
leaves the previous local list unchanged: normalizing `null` against a
one-element previous catalog returns that catalog, not the empty list. -/
theorem normalize_nomatch_not_empty :
    normalizeProducts [JVal.str "P1"] JVal.null ≠ ([] : List JVal) := by
  simp [normalizeProducts, jGetArr, jGet]

/-- C6 (amended). Normalization is uniform across the recognized envelope
shapes: wrapping an item list under the domain key (`behaviors` or
`products`), presenting it bare, or wrapping it under `data` all yield
that item list for both list fetches; on a raw value matching no rule the
behaviors fetch yields the empty list, while the products fetch leaves the
previous local list unchanged. -/
theorem normalize_uniform_shapes (xs prev : List JVal) (raw : JVal)
    (hna : raw.isArr = false)
    (hb : jGetArr raw "behaviors" = none)
    (hp : jGetArr raw "products" = none)
    (hd : jGetArr raw "data" = none) :
    normalizeBehaviors (.obj [( "behaviors", .arr xs )]) = xs
    ∧ normalizeBehaviors (.arr xs) = xs
    ∧ normalizeBehaviors (.obj [( "data", .arr xs )]) = xs
    ∧ normalizeProducts prev (.obj [( "products", .arr xs )]) = xs
    ∧ normalizeProducts prev (.arr xs) = xs
    ∧ normalizeProducts prev (.obj [( "data", .arr xs )]) = xs
    ∧ normalizeBehaviors raw = []
    ∧ normalizeProducts prev raw = prev := by
  refine ⟨rfl, rfl, rfl, rfl, rfl, rfl, ?_, ?_⟩
  · cases raw with
    | arr ys => simp [JVal.isArr] at hna
    | null => rfl
    | bool b => rfl
    | num n => rfl
    | str s => rfl
    | obj fs => simp [normalizeBehaviors, hb, hd]
  · cases raw with
    | arr ys => simp [JVal.isArr] at hna
    | null => rfl
    | bool b => rfl
    | num n => rfl
    | str s => rfl
    | obj fs => simp [normalizeProducts, hp, hd]

/-- Witness for C6 (amended) at a concrete item list and a `null` raw
value. -/
theorem normalize_uniform_shapes_witness :
    (JVal.null).isArr = false
    ∧ normalizeBehaviors (.obj [( "behaviors", .arr [JVal.num 1] )]) = [JVal.num 1]
    ∧ normalizeBehaviors JVal.null = []
    ∧ normalizeProducts [JVal.num 2] JVal.null = [JVal.num 2] :=
  have h := normalize_uniform_shapes [JVal.num 1] [JVal.num 2] JVal.null rfl rfl rfl rfl
  ⟨rfl, h.1, h.2.2.2.2.2.2.1, h.2.2.2.2.2.2.2⟩

/-- Staged entries determine their originating raw file. -/
theorem mkMeta_inj (stamp : RawFile → String) (a b : RawFile)
    (h : mkMeta stamp a = mkMeta stamp b) : a = b :=
  congrArg FileWithMeta.file h

/-- C7. A file is accepted only if its declared media type is CSV or its
name ends in .csv case-insensitively; every accepted CSV at or below 5 MB
is staged immediately; an invalid-typed file in the selection sets the
session error "Only CSV files are allowed" but does not prevent the valid
files of the same selection from being staged. -/
theorem stage_type_policy (st : StagerState) (sel : List RawFile)
    (stamp : RawFile → String) (f g : RawFile)
    (hf : f ∈ sel) (hfcsv : isCSV f = true) (hfsz : f.size ≤ MAX_FILE_SIZE)
    (hg : g ∈ sel) (hgcsv : isCSV g = false) :
    mkMeta stamp f ∈ (handleFilesSelected st sel stamp).files
    ∧ (handleFilesSelected st sel stamp).errMsg = "Only CSV files are allowed"
    ∧ mkMeta stamp g ∉ (handleFilesSelected st sel stamp).files.drop st.files.length
    ∧ ((handleFilesSelected st sel stamp).pendingLargeFiles = st.pendingLargeFiles
        ∨ g ∉ (handleFilesSelected st sel stamp).pendingLargeFiles) := by
  refine ⟨?_, ?_, ?_, ?_⟩
  · simp only [handleFilesSelected, List.mem_append]
    right
    exact List.mem_map_of_mem _ (List.mem_filter.mpr ⟨hf, by simp [hfcsv, hfsz]⟩)
  · have : sel.any (fun x => !isCSV x) = true :=
      List.any_eq_true.mpr ⟨g, hg, by simp [hgcsv]⟩
    simp [handleFilesSelected, this]
  · simp only [handleFilesSelected, List.drop_left]
    intro hmem
    obtain ⟨x, hx, hxy⟩ := List.mem_map.mp hmem
    obtain ⟨-, hxp⟩ := List.mem_filter.mp hx
    cases mkMeta_inj stamp x g hxy
    simp [hgcsv] at hxp
  · by_cases he : (sel.filter (fun x => isCSV x && x.size > MAX_FILE_SIZE)).isEmpty
    · left; simp [handleFilesSelected, he]
    · right
      simp only [handleFilesSelected, he, if_neg, Bool.false_eq_true, not_false_eq_true]
      intro hmem
      obtain ⟨-, hxp⟩ := List.mem_filter.mp hmem
      simp [hgcsv] at hxp

/-- Witness for C7: a small valid CSV is staged at once while a text file
in the same selection only sets the error message. -/
theorem stage_type_policy_witness :
    mkMeta (fun _ => "0.5") { name := "a.csv", type := "text/csv", size := 1024 }
        ∈ (handleFilesSelected { files := [], pendingLargeFiles := [], showLargeFileWarning := false, errMsg := "" }
            [{ name := "a.csv", type := "text/csv", size := 1024 },
             { name := "c.txt", type := "text/plain", size := 10 }] (fun _ => "0.5")).files
    ∧ (handleFilesSelected { files := [], pendingLargeFiles := [], showLargeFileWarning := false, errMsg := "" }
        [{ name := "a.csv", type := "text/csv", size := 1024 },
         { name := "c.txt", type := "text/plain", size := 10 }] (fun _ => "0.5")).errMsg
        = "Only CSV files are allowed" :=
  have h := stage_type_policy
    { files := [], pendingLargeFiles := [], showLargeFileWarning := false, errMsg := "" }
    [{ name := "a.csv", type := "text/csv", size := 1024 },
     { name := "c.txt", type := "text/plain", size := 10 }] (fun _ => "0.5")
    { name := "a.csv", type := "text/csv", size := 1024 }
    { name := "c.txt", type := "text/plain", size := 10 }
    (by decide) (by decide) (by decide) (by decide) (by decide)
  ⟨h.1, h.2.1⟩

/-- C8. A CSV file strictly over 5 MB is diverted to the
pending-confirmation set and is not among the newly staged files;
confirmPending appends the entire pending batch to the staged set and
empties it; cancelPending discards the pending batch and leaves the
staged set exactly unchanged. -/
theorem large_file_confirmation_gate (st : StagerState) (sel : List RawFile)
    (stamp : RawFile → String) (f : RawFile)
    (hf : f ∈ sel) (hcsv : isCSV f = true) (hbig : MAX_FILE_SIZE < f.size) :
    f ∈ (handleFilesSelected st sel stamp).pendingLargeFiles
    ∧ (handleFilesSelected st sel stamp).showLargeFileWarning = true
    ∧ mkMeta stamp f ∉ (handleFilesSelected st sel stamp).files.drop st.files.length
    ∧ (handleConfirmLargeFiles (handleFilesSelected st sel stamp) stamp).files
        = (handleFilesSelected st sel stamp).files
          ++ ((handleFilesSelected st sel stamp).pendingLargeFiles.map (mkMeta stamp))
    ∧ mkMeta stamp f ∈ (handleConfirmLargeFiles (handleFilesSelected st sel stamp) stamp).files
    ∧ (handleConfirmLargeFiles (handleFilesSelected st sel stamp) stamp).pendingLargeFiles = []
    ∧ (handleCancelLargeFiles (handleFilesSelected st sel stamp)).files
        = (handleFilesSelected st sel stamp).files
    ∧ (handleCancelLargeFiles (handleFilesSelected st sel stamp)).pendingLargeFiles = [] := by
  have hfl : f ∈ sel.filter (fun x => isCSV x && x.size > MAX_FILE_SIZE) :=
    List.mem_filter.mpr ⟨hf, by simp [hcsv, hbig]⟩
  have hne : (sel.filter (fun x => isCSV x && x.size > MAX_FILE_SIZE)).isEmpty = false := by
    cases hq : (sel.filter (fun x => isCSV x && x.size > MAX_FILE_SIZE)) with
    | nil => rw [hq] at hfl; simp at hfl
    | cons a l => simp [hq, List.isEmpty]
  have hpf : f ∈ (handleFilesSelected st sel stamp).pendingLargeFiles := by
    simpa [handleFilesSelected, hne] using hfl
  refine ⟨hpf, ?_, ?_, rfl, ?_, rfl, rfl, rfl⟩
  · simp [handleFilesSelected, hne]
  · simp only [handleFilesSelected, List.drop_left]
    intro hmem
    obtain ⟨x, hx, hxy⟩ := List.mem_map.mp hmem
    obtain ⟨-, hxp⟩ := List.mem_filter.mp hx
    cases mkMeta_inj stamp x f hxy
    simp at hxp
    omega
  · simp only [handleConfirmLargeFiles, List.mem_append]
    right
    exact List.mem_map_of_mem _ hpf

/-- Witness for C8: a 6 MB CSV goes to pending, appears in the staged set
only after confirmation, and cancelPending leaves the staged set empty. -/
theorem large_file_confirmation_gate_witness :
    { name := "b.csv", type := "text/csv", size := 6 * 1024 * 1024 }
        ∈ (handleFilesSelected { files := [], pendingLargeFiles := [], showLargeFileWarning := false, errMsg := "" }
            [{ name := "b.csv", type := "text/csv", size := 6 * 1024 * 1024 }] (fun _ => "0.5")).pendingLargeFiles
    ∧ mkMeta (fun _ => "0.5") { name := "b.csv", type := "text/csv", size := 6 * 1024 * 1024 }
        ∉ (handleFilesSelected { files := [], pendingLargeFiles := [], showLargeFileWarning := false, errMsg := "" }
            [{ name := "b.csv", type := "text/csv", size := 6 * 1024 * 1024 }] (fun _ => "0.5")).files.drop
            ({ files := [], pendingLargeFiles := [], showLargeFileWarning := false, errMsg := "" } : StagerState).files.length
    ∧ mkMeta (fun _ => "0.5") { name := "b.csv", type := "text/csv", size := 6 * 1024 * 1024 }
        ∈ (handleConfirmLargeFiles
            (handleFilesSelected { files := [], pendingLargeFiles := [], showLargeFileWarning := false, errMsg := "" }
              [{ name := "b.csv", type := "text/csv", size := 6 * 1024 * 1024 }] (fun _ => "0.5")) (fun _ => "0.5")).files :=
  have h := large_file_confirmation_gate
    { files := [], pendingLargeFiles := [], showLargeFileWarning := false, errMsg := "" }
    [{ name := "b.csv", type := "text/csv", size := 6 * 1024 * 1024 }] (fun _ => "0.5")
    { name := "b.csv", type := "text/csv", size := 6 * 1024 * 1024 }
    (by decide) (by decide) (by decide)
  ⟨h.1, h.2.2.1, h.2.2.2.2.1⟩

/-- Every branch of the onload handler leaves the session settled with the
abort controller dropped. -/
theorem xhrOnload_settles (st : SessionState) (status : Nat) (rawText : String)
    (body : Option JVal) :
    (xhrOnload st status rawText body).1.settled = true
    ∧ (xhrOnload st status rawText body).1.hasAbort = false := by
  unfold xhrOnload
  split
  · cases body with
    | none => exact ⟨rfl, rfl⟩
    | some data =>
      simp only
      cases jGet data "recommendations" with
      | none => exact ⟨rfl, rfl⟩
      | some r =>
        simp only
        split
        · exact ⟨rfl, rfl⟩
        · exact ⟨rfl, rfl⟩
  · cases body with
    | none => exact ⟨rfl, rfl⟩
    | some errorData => exact ⟨rfl, rfl⟩

/-- The onload handler never touches the progress record. -/
theorem xhrOnload_progress (st : SessionState) (status : Nat) (rawText : String)
    (body : Option JVal) :
    (xhrOnload st status rawText body).1.progress = st.progress := by
  unfold xhrOnload
  split
  · cases body with
    | none => rfl
    | some data =>
      simp only
      cases jGet data "recommendations" with
      | none => rfl
      | some r =>
        simp only
        split
        · rfl
        · rfl
  · cases body with
    | none => rfl
    | some errorData => rfl

/-- A settled session with no abort controller absorbs every event: no
state change and no outcome. -/
theorem terminal_absorb (files : List FileWithMeta) (st : SessionState)
    (hs : st.settled = true) (ha : st.hasAbort = false) (e : RealEv) :
    realStep files st e = (st, none) := by
  cases e <;> simp [realStep, cancelStep, hs, ha]

/-- Any step that delivers an outcome leaves the session settled with no
abort controller. -/
theorem step_outcome_terminal (files : List FileWithMeta) (st : SessionState)
    (e : RealEv) (st1 : SessionState) (o : Outcome)
    (h : realStep files st e = (st1, some o)) :
    st1.settled = true ∧ st1.hasAbort = false := by
  cases e with
  | progress lc loaded total =>
    by_cases hs : st.settled = true
    · simp [realStep, hs] at h
    · simp only [realStep] at h
      rw [if_neg hs] at h
      split at h <;> simp at h
  | load status rawText body =>
    by_cases hs : st.settled = true
    · simp [realStep, hs] at h
    · simp only [realStep, hs, if_false, Bool.false_eq_true] at h
      have := xhrOnload_settles st status rawText body
      rw [show (xhrOnload st status rawText body).1 = st1 by rw [h]] at this
      exact this
  | netError =>
    by_cases hs : st.settled = true
    · simp [realStep, hs] at h
    · simp [realStep, hs] at h
      obtain ⟨h1, -⟩ := h
      rw [← h1]
      exact ⟨rfl, rfl⟩
  | userCancel =>
    by_cases ha : st.hasAbort = true
    · simp [realStep, cancelStep, ha] at h
      obtain ⟨h1, -⟩ := h
      rw [← h1]
      exact ⟨rfl, rfl⟩
    · simp [realStep, cancelStep, ha] at h

/-- A session that has settled and dropped its controller is untouched by
any further event list and delivers nothing. -/
theorem run_terminal (files : List FileWithMeta) (st : SessionState)
    (hs : st.settled = true) (ha : st.hasAbort = false) (es : List RealEv) :
    realRun files st es = (st, []) := by
  induction es with
  | nil => rfl
  | cons e es ih => simp [realRun, terminal_absorb files st hs ha e, ih]

/-- Over any event list, any session state delivers at most one outcome. -/
theorem run_len_le_one (files : List FileWithMeta) (es : List RealEv) :
    ∀ st : SessionState, (realRun files st es).2.length ≤ 1 := by
  induction es with
  | nil => intro st; simp [realRun]
  | cons e es ih =>
    intro st
    rcases h : realStep files st e with ⟨st1, o⟩
    cases o with
    | none => simpa [realRun, h] using ih st1
    | some o =>
      obtain ⟨h1, h2⟩ := step_outcome_terminal files st e st1 o h
      simp [realRun, h, run_terminal files st1 h1 h2 es]

/-- If a run has delivered an outcome, the resulting session state is
settled with no abort controller. -/
theorem run_outcome_terminal (files : List FileWithMeta) (es : List RealEv) :
    ∀ st : SessionState, (realRun files st es).2 ≠ [] →
      (realRun files st es).1.settled = true ∧ (realRun files st es).1.hasAbort = false := by
  induction es with
  | nil => intro st hne; simp [realRun] at hne
  | cons e es ih =>
    intro st hne
    rcases h : realStep files st e with ⟨st1, o⟩
    cases o with
    | none =>
      simp only [realRun, h, Option.toList, List.nil_append] at hne ⊢
      exact ih st1 hne
    | some o =>
      obtain ⟨h1, h2⟩ := step_outcome_terminal files st e st1 o h
      simp [realRun, h, run_terminal files st1 h1 h2 es, h1, h2]

/-- C3. A real-mode upload session delivers at most one terminal outcome;
once an outcome has been delivered, every further event leaves the state
unchanged and delivers nothing (the outcome is the last event of the
handle); and a cancel click after the terminal outcome is a strict no-op. -/
theorem upload_single_terminal_outcome (files : List FileWithMeta)
    (es1 es2 : List RealEv) (st : SessionState)
    (hs : st.settled = true) (ha : st.hasAbort = false)
    (hne : (realRun files realInit es1).2 ≠ []) :
    (realRun files realInit (es1 ++ es2)).2.length ≤ 1
    ∧ realRun files (realRun files realInit es1).1 es2 = ((realRun files realInit es1).1, [])
    ∧ realStep files st .userCancel = (st, none) := by
  obtain ⟨h1, h2⟩ := run_outcome_terminal files es1 realInit hne
  exact ⟨run_len_le_one files (es1 ++ es2) realInit,
    run_terminal files _ h1 h2 es2,
    terminal_absorb files st hs ha .userCancel⟩

/-- Witness for C3: a network error terminates the session; afterwards a
cancel click changes nothing. -/
theorem upload_single_terminal_outcome_witness :
    (realRun [] realInit ([RealEv.netError] ++ [RealEv.userCancel])).2.length ≤ 1
    ∧ realRun [] (realRun [] realInit [RealEv.netError]).1 [RealEv.userCancel]
        = ((realRun [] realInit [RealEv.netError]).1, [])
    ∧ realStep [] (settle realInit) RealEv.userCancel = (settle realInit, none) :=
  upload_single_terminal_outcome [] [RealEv.netError] [RealEv.userCancel]
    (settle realInit) rfl rfl
    (by intro h; exact absurd (congrArg List.length h) (by decide))

/-- The rounded percentage is monotone in the byte count. -/
theorem pct_mono (a b t : Nat) (h : a ≤ b) : pct a t ≤ pct b t :=
  Nat.div_le_div_right (by omega)

/-- A complete upload (loaded = total) rounds to exactly 100 percent. -/
theorem pct_total (t : Nat) (ht : 0 < t) : pct t t = 100 := by
  unfold pct
  rw [show 200 * t + t = 2 * t * 100 + t by ring]
  rw [Nat.mul_add_div (by omega)]
  rw [Nat.div_eq_of_lt (by omega)]

/-- The overall percentages seen along a progress-event trace are the
initial one followed by the rounded percentage of each byte count. -/
theorem runStates_progress_overalls (files : List FileWithMeta) (t : Nat)
    (lds : List Nat) :
    ∀ st : SessionState, st.settled = false →
      (runStatesFrom files st (progressTrace lds t)).map (fun s => s.progress.overall)
        = st.progress.overall :: lds.map (fun l => pct l t) := by
  induction lds with
  | nil => intro st hs; simp [progressTrace, runStatesFrom]
  | cons l ls ih =>
    intro st hs
    have hstep : (realStep files st (.progress true l t)).1
        = { st with progress := tickProgress files (pct l t) } := by
      simp [realStep, hs]
    simp only [progressTrace, List.map_cons, runStatesFrom, hstep]
    rw [show (List.map (fun l => RealEv.progress true l t) ls) = progressTrace ls t from rfl]
    rw [ih { st with progress := tickProgress files (pct l t) } hs]
    rfl

/-- Running an appended event list is running the two parts in order. -/
theorem realRun_append_state (files : List FileWithMeta) (es1 es2 : List RealEv) :
    ∀ st : SessionState,
      (realRun files st (es1 ++ es2)).1 = (realRun files (realRun files st es1).1 es2).1 := by
  induction es1 with
  | nil => intro st; simp [realRun]
  | cons e es ih =>
    intro st
    simp only [List.cons_append, realRun]
    exact ih (realStep files st e).1

/-- After a progress trace ending in byte count `l`, the session state is
the starting state with the corresponding broadcast progress record. -/
theorem realRun_progress_last (files : List FileWithMeta) (t l : Nat) (lds : List Nat) :
    ∀ st : SessionState, st.settled = false →
      (realRun files st (progressTrace (lds ++ [l]) t)).1
        = { st with progress := tickProgress files (pct l t) } := by
  induction lds with
  | nil =>
    intro st hs
    simp [progressTrace, realRun, realStep, hs]
  | cons a as ih =>
    intro st hs
    have hstep : realStep files st (.progress true a t)
        = ({ st with progress := tickProgress files (pct a t) }, none) := by
      simp [realStep, hs]
    simp only [progressTrace, List.cons_append, List.map_cons, realRun, hstep]
    exact ih { st with progress := tickProgress files (pct a t) } hs

/-- C4. Within a single real-mode attempt the overall percentage is
monotonically non-decreasing along any trace of transport progress events
with non-decreasing byte counts; every progress event broadcasts the
overall percentage identically to each staged file; a completed transfer
(final progress event with loaded = total, then the load event) ends at
exactly 100 percent; and cancellation resets overall and per-file progress
to zero while delivering the Aborted outcome. -/
theorem upload_progress_invariants (files : List FileWithMeta) (lds : List Nat)
    (t : Nat) (ht : 0 < t) (hmono : List.Chain' (· ≤ ·) lds)
    (st : SessionState) (hs : st.settled = false) (ha : st.hasAbort = true)
    (l status : Nat) (rawText : String) (body : Option JVal) :
    List.Chain' (· ≤ ·)
      ((runStatesFrom files realInit (progressTrace lds t)).map (fun s => s.progress.overall))
    ∧ (realStep files st (.progress true l t)).1.progress.perFile
        = files.map (fun f => (f.id, (realStep files st (.progress true l t)).1.progress.overall))
    ∧ (realRun files realInit
        (progressTrace (lds ++ [t]) t ++ [.load status rawText body])).1.progress.overall = 100
    ∧ (cancelStep st).1.progress.overall = 0
    ∧ (cancelStep st).1.progress.perFile = []
    ∧ (cancelStep st).2 = some .aborted := by
  refine ⟨?_, ?_, ?_, ?_, ?_, ?_⟩
  · rw [runStates_progress_overalls files t lds realInit rfl]
    rw [List.chain'_cons']
    constructor
    · intro b hb; exact Nat.zero_le b
    · exact List.chain'_map_of_chain' _ (fun a b hab => pct_mono a b t hab) hmono
  · simp [realStep, hs, tickProgress]
  · rw [realRun_append_state]
    rw [realRun_progress_last files t t lds realInit rfl]
    have hs2 : ¬ (({ realInit with progress := tickProgress files (pct t t) }
        : SessionState).settled = true) := by simp [realInit]
    simp only [realRun, realStep]
    rw [if_neg hs2]
    rw [xhrOnload_progress]
    simp [tickProgress, pct_total t ht]
  · simp [cancelStep, ha]
  · simp [cancelStep, ha]
  · simp [cancelStep, ha]

/-- Witness for C4 on a one-file session with byte counts 0, 40, 100 out
of 100 and a 200 response. -/
theorem upload_progress_invariants_witness :
    List.Chain' (· ≤ ·)
      ((runStatesFrom [{ file := { name := "a.csv", type := "text/csv", size := 3 }, id := "a.csv-1", name := "a.csv", size := 3 }]
          realInit (progressTrace [0, 40] 100)).map (fun s => s.progress.overall))
    ∧ (realRun [{ file := { name := "a.csv", type := "text/csv", size := 3 }, id := "a.csv-1", name := "a.csv", size := 3 }]
        realInit (progressTrace ([0, 40] ++ [100]) 100
          ++ [.load 200 "" (some (.obj [( "recommendations", .arr [JVal.str "r"] )]))])).1.progress.overall = 100
    ∧ (cancelStep realInit).2 = some .aborted :=
  have h := upload_progress_invariants
    [{ file := { name := "a.csv", type := "text/csv", size := 3 }, id := "a.csv-1", name := "a.csv", size := 3 }]
    [0, 40] 100 (by decide) (by norm_num [List.chain'_cons, List.chain'_singleton])
    realInit rfl rfl 7 200 ""
    (some (.obj [( "recommendations", .arr [JVal.str "r"] )]))
  ⟨h.1, h.2.2.1, h.2.2.2.2.2⟩

/-- C5. A mock-mode upload on a non-empty staged set publishes exactly the
progress ticks 0, 10, ..., 100 in order, at every tick each staged file's
per-file percentage equals the published overall percentage, and the
session terminates with Success carrying the canned envelope (its
recommendations and its explanation defaulted to the empty string). -/
theorem mock_upload_tick_contract (files : List FileWithMeta) (_hne : files ≠ [])
    (cannedRecs : JVal) (cannedExpl : Option JVal) :
    ((mockUpload files cannedRecs cannedExpl).1).map (fun up => up.overall)
        = [0, 10, 20, 30, 40, 50, 60, 70, 80, 90, 100]
    ∧ ((mockUpload files cannedRecs cannedExpl).1).map (fun up => up.perFile)
        = ((mockUpload files cannedRecs cannedExpl).1).map
            (fun up => files.map (fun f => (f.id, up.overall)))
    ∧ (mockUpload files cannedRecs cannedExpl).2
        = .success cannedRecs (jsOr cannedExpl (.str "")) :=
  ⟨rfl, rfl, rfl⟩

/-- Witness for C5 on a concrete one-file staged set. -/
theorem mock_upload_tick_contract_witness :
    (([{ file := { name := "a.csv", type := "text/csv", size := 3 }, id := "a.csv-1", name := "a.csv", size := 3 }]
        : List FileWithMeta) ≠ [])
    ∧ ((mockUpload [{ file := { name := "a.csv", type := "text/csv", size := 3 }, id := "a.csv-1", name := "a.csv", size := 3 }]
        (.arr [JVal.str "r"]) (some (.str "why"))).1).map (fun up => up.overall)
        = [0, 10, 20, 30, 40, 50, 60, 70, 80, 90, 100]
    ∧ (mockUpload [{ file := { name := "a.csv", type := "text/csv", size := 3 }, id := "a.csv-1", name := "a.csv", size := 3 }]
        (.arr [JVal.str "r"]) (some (.str "why"))).2
        = .success (.arr [JVal.str "r"]) (jsOr (some (.str "why")) (.str "")) :=
  have h := mock_upload_tick_contract
    [{ file := { name := "a.csv", type := "text/csv", size := 3 }, id := "a.csv-1", name := "a.csv", size := 3 }]
    (by decide) (.arr [JVal.str "r"]) (some (.str "why"))
  ⟨by decide, h.1, h.2.2⟩

/-- With no abort controller, interleaved cancel clicks are invisible to
the mock tick loop: the run equals the run of the ticks alone. -/
theorem mockRun_cancel_transparent (files : List FileWithMeta) (es : List MockEv) :
    ∀ st : SessionState, st.hasAbort = false →
      mockRunEv files st es = mockRunEv files st (es.filter MockEv.isTick) := by
  induction es with
  | nil => intro st h; rfl
  | cons e es ih =>
    intro st h
    cases e with
    | tick i =>
      simp only [List.filter, MockEv.isTick, mockRunEv, mockStep]
      rw [ih { st with progress := tickProgress files i } h]
    | cancel =>
      simp only [List.filter, MockEv.isTick, mockRunEv, mockStep, cancelStep, h,
        Bool.false_eq_true, if_false]
      rw [ih st h]
      simp

/-- With no abort controller, the mock tick loop delivers no outcome at
all (in particular never Aborted). -/
theorem mockRun_no_outcome (files : List FileWithMeta) (es : List MockEv) :
    ∀ st : SessionState, st.hasAbort = false → (mockRunEv files st es).2 = [] := by
  induction es with
  | nil => intro st h; rfl
  | cons e es ih =>
    intro st h
    cases e with
    | tick i => simpa [mockRunEv, mockStep] using ih { st with progress := tickProgress files i } h
    | cancel => simpa [mockRunEv, mockStep, cancelStep, h] using ih st h

/-- C10 (implicit). A mock-mode upload session can never be cancelled: the
mock branch creates no abort handle (and ticks preserve its absence), a
cancel click during the loop has no effect on state and delivers nothing
(progress is not reset and no Aborted outcome ever arises), cancel clicks
are transparent to the whole run, and the session always runs its eleven
ticks to the Success terminal outcome. -/
theorem mock_upload_uncancellable (files : List FileWithMeta) (st : SessionState)
    (h : st.hasAbort = false) (es : List MockEv) (i : Nat)
    (cannedRecs : JVal) (cannedExpl : Option JVal) :
    (mockStart st).hasAbort = false
    ∧ ((mockStep files st (.tick i)).1).hasAbort = false
    ∧ mockStep files st .cancel = (st, none)
    ∧ mockRunEv files st es = mockRunEv files st (es.filter MockEv.isTick)
    ∧ (mockRunEv files st es).2 = []
    ∧ (mockUpload files cannedRecs cannedExpl).2
        = .success cannedRecs (jsOr cannedExpl (.str ""))
    ∧ ((mockUpload files cannedRecs cannedExpl).1).length = 11 := by
  refine ⟨h, h, ?_, mockRun_cancel_transparent files es st h,
    mockRun_no_outcome files es st h, rfl, rfl⟩
  simp [mockStep, cancelStep, h]

/-- Witness for C10: during a mock session (no abort controller) a cancel
click between the first ticks changes nothing. -/
theorem mock_upload_uncancellable_witness :
    (mockStart idleState).hasAbort = false
    ∧ mockStep [] idleState .cancel = (idleState, none)
    ∧ mockRunEv [] idleState [.tick 0, .cancel, .tick 10]
        = mockRunEv [] idleState ([.tick 0, .cancel, .tick 10].filter MockEv.isTick)
    ∧ (mockRunEv [] idleState [.tick 0, .cancel, .tick 10]).2 = []
    ∧ (mockUpload [] (.arr []) none).2 = .success (.arr []) (jsOr none (.str "")) :=
  have h := mock_upload_uncancellable [] idleState rfl [.tick 0, .cancel, .tick 10] 0
    (.arr []) none
  ⟨h.1, h.2.2.1, h.2.2.2.1, h.2.2.2.2.1, h.2.2.2.2.2.1⟩

/-- C9 counterexample. The claim says every 2xx completion is classified
as Success; but the XHR upload path treats only status exactly 200 as
success: a 204 response (a 2xx status, here even carrying a well-formed
recommendations body) is classified as a server error. -/
theorem status_204_classified_error :
    responseOk 204 = true
    ∧ (realStep [] realInit
        (.load 204 "" (some (.obj [( "recommendations", .arr [JVal.str "r"] )])))).2
        = some (.serverError (.str "Server error occurred.")) :=
  ⟨rfl, rfl⟩

/-- C9 (amended). Requests through apiFetch classify exactly the 2xx
statuses as success; a failed apiFetch call surfaces the first present
field among detail[0].msg, detail, message from the parsed error body, in
that priority order, falling back to "API Error: <status> <statusText>"
when no field is present or the body is not parseable. The XHR upload
path instead classifies only status exactly 200 as success and surfaces
message, then error, then the raw response text. -/
theorem error_text_classification
    (status status2 : Nat) (statusText rawText : String)
    (okBody : JVal) (msg dtl m2 : String)
    (st : SessionState) (files : List FileWithMeta)
    (hok : responseOk status = false) (hok2 : responseOk status2 = true)
    (hs : st.settled = false) (hst : status ≠ 200)
    (hmsg : msg ≠ "") (hdtl : dtl ≠ "") (hm2 : m2 ≠ "") (hraw : rawText ≠ "") :
    apiFetchResult status2 statusText none okBody = .ok okBody
    ∧ apiFetchResult status statusText
        (some (.obj [( "detail", .arr [.obj [( "msg", .str msg )]] ), ( "message", .str m2 )]))
        okBody = .err (.str msg)
    ∧ apiFetchResult status statusText
        (some (.obj [( "detail", .str dtl ), ( "message", .str m2 )])) okBody
        = .err (.str dtl)
    ∧ apiFetchResult status statusText (some (.obj [( "message", .str m2 )])) okBody
        = .err (.str m2)
    ∧ apiFetchResult status statusText none okBody
        = .err (.str ("API Error: " ++ toString status ++ " " ++ statusText))
    ∧ (realStep files st (.load 200 "" (some (.obj [( "recommendations", .arr [okBody] )])))).2
        = some (.success (.arr [okBody]) (.str ""))
    ∧ (realStep files st (.load status "" (some (.obj [( "message", .str m2 )])))).2
        = some (.serverError (.str m2))
    ∧ (realStep files st (.load status "" (some (.obj [( "error", .str m2 )])))).2
        = some (.serverError (.str m2))
    ∧ (realStep files st (.load status rawText none)).2
        = some (.serverError (.str rawText)) := by
  refine ⟨?_, ?_, ?_, ?_, ?_, ?_, ?_, ?_, ?_⟩
  · simp [apiFetchResult, hok2]
  · simp [apiFetchResult, hok, apiFetchErrorMsg, detailMsg, jOpt, jIndex0, jGet, jsOr,
      truthy, hmsg]
  · simp only [apiFetchResult, hok, Bool.false_eq_true, if_false, apiFetchErrorMsg,
      detailMsg, jGet, Option.getD]
    have hempty : dtl.isEmpty = false := by
      cases hq : dtl.isEmpty
      · rfl
      · exact absurd ((String.isEmpty_iff dtl).mp hq) hdtl
    simp [jOpt, jIndex0, hempty, jGet, jsOr, truthy, hdtl]
  · have l1 : List.lookup "detail" [( "message", JVal.str m2 )] = none := rfl
    have l2 : List.lookup "message" [( "message", JVal.str m2 )] = some (JVal.str m2) := rfl
    simp [apiFetchResult, hok, apiFetchErrorMsg, detailMsg, jOpt, jIndex0, jGet, jsOr,
      truthy, hm2, l1, l2]
  · simp [apiFetchResult, hok, apiFetchErrorMsg, detailMsg, jOpt, jIndex0, jGet, jsOr]
  · have l1 : List.lookup "explanation" [( "recommendations", JVal.arr [okBody] )] = none := rfl
    simp [realStep, hs, xhrOnload, jGet, truthy, jsLenPos, jsOr, settle, l1]
  · simp [realStep, hs, xhrOnload, hst, jGet, jsOr, truthy, hm2, settle]
  · have l1 : List.lookup "message" [( "error", JVal.str m2 )] = none := rfl
    have l2 : List.lookup "error" [( "error", JVal.str m2 )] = some (JVal.str m2) := rfl
    simp [realStep, hs, xhrOnload, hst, jGet, jsOr, truthy, hm2, settle, l1, l2]
  · have hrawb : (rawText == "") = false := by
      cases hq : rawText == ""
      · rfl
      · exact absurd (by simpa using hq) hraw
    simp [realStep, hs, xhrOnload, hst, hrawb, settle]

/-- Witness for C9 (amended) at status 404 "Not Found" (and 201 for the
ok case). -/
theorem error_text_classification_witness :
    apiFetchResult 201 "Created" none (.num 1) = .ok (.num 1)
    ∧ apiFetchResult 404 "Not Found"
        (some (.obj [( "detail", .arr [.obj [( "msg", .str "m" )]] ), ( "message", .str "e" )]))
        (.num 1) = .err (.str "m")
    ∧ apiFetchResult 404 "Not Found" none (.num 1)
        = .err (.str ("API Error: " ++ toString 404 ++ " " ++ "Not Found"))
    ∧ (realStep [] realInit (.load 200 "" (some (.obj [( "recommendations", .arr [JVal.num 1] )])))).2
        = some (.success (.arr [JVal.num 1]) (.str ""))
    ∧ (realStep [] realInit (.load 404 "oops" none)).2 = some (.serverError (.str "oops")) :=
  have h := error_text_classification 404 201 "Not Found" "oops" (.num 1) "m" "d" "e"
    realInit [] rfl rfl rfl (by decide) (by decide) (by decide) (by decide) (by decide)
  ⟨h.1, h.2.1, h.2.2.2.2.1, h.2.2.2.2.2.1, h.2.2.2.2.2.2.2.2⟩

end ECRec
